import Mathlib

set_option maxRecDepth 16384

/-!
Verification development for the MindGPT repository: an Express backend
(src/unnamed/part_000) proxying a generative-language API, and a browser
client (src/script.js).  JavaScript string primitives are embedded as
structural recursions over the character list of a Lean string so that
every definition evaluates inside the kernel.
-/

/-! ## JavaScript string primitives -/

/-- JS truthiness of a possibly-absent string value: undefined, null and the
empty string are falsy; every other string is truthy. -/
def jsFalsyStr : Option String → Bool
  | none => true
  | some s => s == ""

/-- Character-list core of String.prototype.startsWith. -/
def startsWithList : List Char → List Char → Bool
  | _, [] => true
  | [], _ :: _ => false
  | c :: cs, p :: ps => c == p && startsWithList cs ps

/-- Models String.prototype.startsWith with a string argument. -/
def jsStartsWith (s pat : String) : Bool :=
  startsWithList s.data pat.data

/-- Splits a character list at every occurrence of a separator character,
keeping empty segments, as String.prototype.split does for a
one-character separator. -/
def splitCharList (sep : Char) : List Char → List (List Char)
  | [] => [[]]
  | c :: cs =>
    let r := splitCharList sep cs
    if c == sep then [] :: r
    else
      match r with
      | [] => [[c]]
      | h :: t => (c :: h) :: t

/-- Models text.split of the one-character separator used by the source,
a newline. -/
def jsSplitNewline (s : String) : List String :=
  (splitCharList '\n' s.data).map (fun l => ⟨l⟩)

/-- Whitespace characters stripped by String.prototype.trim. -/
def isJsWhitespace (c : Char) : Bool :=
  c == ' ' || c == '\t' || c == '\n' || c == '\r' || c == '\x0b' || c == '\x0c'

/-- Drops leading JS whitespace from a character list. -/
def trimLeftList : List Char → List Char
  | [] => []
  | c :: cs => if isJsWhitespace c then trimLeftList cs else c :: cs

/-- Models String.prototype.trim: strips whitespace from both ends. -/
def jsTrim (s : String) : String :=
  ⟨trimLeftList (trimLeftList s.data.reverse).reverse⟩

/-- Character-list core of String.prototype.includes. -/
def containsList (pat : List Char) : List Char → Bool
  | [] => startsWithList [] pat
  | c :: cs => startsWithList (c :: cs) pat || containsList pat cs

/-- Models String.prototype.includes for a string needle. -/
def jsIncludes (s pat : String) : Bool :=
  containsList pat.data s.data

/-- Character-list core of String.prototype.replace with a string pattern:
only the first occurrence is replaced; a string with no occurrence is
returned unchanged. -/
def replaceFirstList (pat repl : List Char) : List Char → List Char
  | [] => []
  | c :: cs =>
    if startsWithList (c :: cs) pat then repl ++ List.drop pat.length (c :: cs)
    else c :: replaceFirstList pat repl cs

/-- Models String.prototype.replace with a string pattern and replacement. -/
def jsReplaceFirst (s pat repl : String) : String :=
  ⟨replaceFirstList pat.data repl.data s.data⟩

/-- Models Array.prototype.join with a string separator. -/
def joinSep (sep : String) : List String → String
  | [] => ""
  | [x] => x
  | x :: y :: xs => x ++ sep ++ joinSep sep (y :: xs)

/-! ## Prompt builder (getPromptForStyle in src/unnamed/part_000) -/

/-- The shared formatting directive appended to every persona prompt.  The
source writes the example separator as a backslash followed by the letter n
inside a double-quoted JS string, so it is two literal characters, not a
newline. -/
def formattingInstruction : String :=
  "Do not use asterisks for emphasis (like *word*). Only use asterisks for bullet points. After the main response, provide a list of 3 relevant web search queries that would help the user learn more. Each query must be on a new line and prefixed with \x27SEARCH_QUERY:\x27. For example:\\nSEARCH_QUERY: history of artificial intelligence"

/-- The switch statement of getPromptForStyle: four recognized styles and a
default persona for everything else. -/
def getPromptForStyle (topic style : String) : String :=
  if style == "Professional" then
    "You are a professional assistant. Respond to the following topic in a formal, structured, and business-appropriate tone. " ++ formattingInstruction ++ " Topic: \"" ++ topic ++ "\""
  else if style == "Casual" then
    "You are a friendly and casual AI companion. Respond to the following in a relaxed, conversational, and approachable tone. Use informal language where appropriate. " ++ formattingInstruction ++ " Topic: \"" ++ topic ++ "\""
  else if style == "Simple" then
    "You are an expert at simplification. Explain the following topic in simple, clear, and easy-to-understand terms. Avoid jargon and use analogies if it helps. " ++ formattingInstruction ++ " Topic: \"" ++ topic ++ "\""
  else if style == "Creative" then
    "You are a creative and witty AI. Respond to the following topic with originality, humor, and a touch of cleverness. Feel free to be imaginative. " ++ formattingInstruction ++ " Topic: \"" ++ topic ++ "\""
  else
    "You are a helpful and knowledgeable AI assistant. Provide a detailed and informative answer for the following question or topic. " ++ formattingInstruction ++ " Topic: \"" ++ topic ++ "\""

/-! ## Response parsing in the /generate-post route -/

/-- The marker token that tags a line of the raw upstream text as a search
query. -/
def searchQueryMarker : String := "SEARCH_QUERY:"

/-- One iteration of the forEach loop over the split lines: a marker line is
stripped, trimmed and pushed onto searchQueries, any other line is pushed
onto responseTextLines. -/
def stepLine (acc : List String × List String) (line : String) : List String × List String :=
  if jsStartsWith line searchQueryMarker then
    (acc.1, acc.2 ++ [jsTrim (jsReplaceFirst line searchQueryMarker "")])
  else
    (acc.1 ++ [line], acc.2)

/-- The parsing block of the /generate-post route: split the raw text on
newlines, partition the lines through the forEach loop, rejoin the
non-marker lines with newlines and trim. -/
def parsePost (fullResponseText : String) : String × List String :=
  let acc := (jsSplitNewline fullResponseText).foldl stepLine ([], [])
  (jsTrim (joinSep "\n" acc.1), acc.2)

/-! ## The upstream model call and the /generate-post route -/

/-- The resolved upstream response object: the optional safety-filter block
reason reached through response.promptFeedback, and the text accessor,
where some s means invoking response.text would yield s and none means the
accessor is absent. -/
structure GeminiResponse where
  blockReason : Option String
  text : Option String
deriving DecidableEq

/-- Outcome of awaiting model.generateContent followed by result.response:
either the promise rejects with an error message, or it resolves to a
response value that may itself be null or undefined. -/
inductive UpstreamOutcome where
  | threw (msg : String)
  | returned (response : Option GeminiResponse)
deriving DecidableEq

/-- The JSON reply of a route: HTTP status plus the fields the handler may
set in the body. -/
structure PostResponse where
  status : Nat
  responseText : Option String
  searchQueries : Option (List String)
  error : Option String
deriving DecidableEq

/-- A route outcome together with the prompt passed to the upstream model,
or none when no upstream call was made. -/
structure PostOutcome where
  response : PostResponse
  calledWith : Option String
deriving DecidableEq

/-- The error payload of the 400 branch of /generate-post. -/
def topicRequiredMessage : String := "Topic is required"

/-- The message thrown when the response exists but was blocked by the
safety filters. -/
def blockedMessage (blockReason : String) : String :=
  "Request was blocked by the AI\x27s safety filters. Reason: " ++ blockReason ++ ". Please try a different topic."

/-- The message thrown when the response or its text accessor is absent and
no block reason is available. -/
def emptyInvalidMessage : String :=
  "The AI model returned an empty or invalid response."

/-- The user-facing payload of the 429 branch of the catch block. -/
def quotaMessage : String :=
  "The daily API quota has been reached. Please try again tomorrow."

/-- The user-facing payload of the 500 branch of the catch block. -/
def genericErrorMessage : String :=
  "An unexpected server error occurred. Please check the server logs."

/-- The guard of the catch block of /generate-post: the error message is
truthy and includes 429 or quota. -/
def quotaMatch (msg : String) : Bool :=
  msg != "" && (jsIncludes msg "429" || jsIncludes msg "quota")

/-- The catch block of /generate-post: a quota-looking message maps to 429
with a fixed user-facing payload, everything else to 500 with a fixed
generic payload. -/
def generatePostCatch (msg : String) : PostResponse :=
  if quotaMatch msg then
    { status := 429, responseText := none, searchQueries := none, error := some quotaMessage }
  else
    { status := 500, responseText := none, searchQueries := none, error := some genericErrorMessage }

/-- The error message thrown by the response-validation block, given the
response that failed validation: the block reason when reachable, the
empty-or-invalid message otherwise. -/
def validationMessage (response : Option GeminiResponse) : String :=
  match response with
  | none => emptyInvalidMessage
  | some r =>
    match r.blockReason with
    | some br => blockedMessage br
    | none => emptyInvalidMessage

/-- The /generate-post route handler (after the rate limiter): reject a
falsy topic with 400 before any upstream call; otherwise build the prompt,
invoke the upstream model, validate that the response and its text
accessor are present, parse the text, and answer 200; every thrown message
goes through the catch block. -/
def generatePost (topic : Option String) (style : String)
    (upstream : String → UpstreamOutcome) : PostOutcome :=
  if jsFalsyStr topic then
    { response := { status := 400, responseText := none, searchQueries := none,
                    error := some topicRequiredMessage },
      calledWith := none }
  else
    let prompt := getPromptForStyle (topic.getD "") style
    let raised : String → PostOutcome := fun msg =>
      { response := generatePostCatch msg, calledWith := some prompt }
    match upstream prompt with
    | .threw msg => raised msg
    | .returned response =>
      match response with
      | none => raised (validationMessage none)
      | some r =>
        match r.text with
        | none => raised (validationMessage (some r))
        | some fullResponseText =>
          let parsed := parsePost fullResponseText
          { response := { status := 200, responseText := some parsed.1,
                          searchQueries := some parsed.2, error := none },
            calledWith := some prompt }

/-! ## The /generate-suggestions route -/

/-- The reply of /generate-suggestions together with the prompt passed to
the upstream model, or none when no upstream call was made. -/
structure SuggestionsOutcome where
  status : Nat
  suggestions : List String
  calledWith : Option String
deriving DecidableEq

/-- The prompt interpolated from the partial query by the suggestions
route. -/
def suggestionPrompt (query : String) : String :=
  "Based on the user\x27s partial search query \"" ++ query ++ "\", generate a list of 4 relevant and diverse search topic suggestions to help them complete their thought. Each suggestion should be on a new line. Do not include numbering or bullet points."

/-- The success path of the suggestions route: split the raw text on
newlines and keep the lines whose trim is non-empty. -/
def suggestionsOf (text : String) : List String :=
  (jsSplitNewline text).filter (fun s => jsTrim s != "")

/-- The /generate-suggestions route handler (after the rate limiter): a
falsy query or a trimmed length under 3 short-circuits to an empty list
with no upstream call; any throw inside the try block, including invoking
a missing text accessor, is caught and also answers an empty list; the
route always answers status 200. -/
def generateSuggestions (query : Option String)
    (upstream : String → UpstreamOutcome) : SuggestionsOutcome :=
  if jsFalsyStr query || (jsTrim (query.getD "")).length < 3 then
    { status := 200, suggestions := [], calledWith := none }
  else
    let prompt := suggestionPrompt (query.getD "")
    match upstream prompt with
    | .threw _ => { status := 200, suggestions := [], calledWith := some prompt }
    | .returned none => { status := 200, suggestions := [], calledWith := some prompt }
    | .returned (some r) =>
      match r.text with
      | none => { status := 200, suggestions := [], calledWith := some prompt }
      | some text =>
        { status := 200, suggestions := suggestionsOf text, calledWith := some prompt }

/-! ## Rate limiter -/

/-- Per-client window state of the rate limiter: the number of requests
admitted in the current window and the instant (in milliseconds) at which
the window began. -/
structure RateState where
  count : Nat
  windowStart : Nat
deriving DecidableEq

/-- The window length configured for apiLimiter: 5 minutes in
milliseconds. -/
def windowMs : Nat := 5 * 60 * 1000

/-- The per-window request cap configured for apiLimiter. -/
def maxRequests : Nat := 15

/-- The structured rejection payload configured for apiLimiter. -/
def rateLimitMessage : String :=
  "Too many requests from this IP, please try again after 5 minutes."

/-- Decision taken by the rate limiter on one inbound request. -/
inductive RateDecision where
  | admitted
  | rejected (status : Nat) (error : String)
deriving DecidableEq

/-- Modelled from the spec: the fixed-window counter of the
express-rate-limit dependency, whose implementation is not among this
repository\x27s sources; the window length, the cap and the rejection
payload are the apiLimiter configuration in src/unnamed/part_000.  A first
request from a client opens a window; a request after the window has
elapsed resets the counter and opens a new window; a request inside the
window is admitted while the count is below the cap and otherwise rejected
with a 429 status and the configured payload. -/
def rateStep : Option RateState → Nat → RateDecision × Option RateState
  | none, now => (.admitted, some { count := 1, windowStart := now })
  | some st, now =>
    if st.windowStart + windowMs ≤ now then
      (.admitted, some { count := 1, windowStart := now })
    else if st.count < maxRequests then
      (.admitted, some { count := st.count + 1, windowStart := st.windowStart })
    else
      (.rejected 429 rateLimitMessage, some st)

/-- Runs the rate limiter over a sequence of request instants, collecting
the decisions. -/
def runLimiter : Option RateState → List Nat → List RateDecision × Option RateState
  | s, [] => ([], s)
  | s, t :: ts =>
    let first := rateStep s t
    let rest := runLimiter first.2 ts
    (first.1 :: rest.1, rest.2)

/-- The composition of apiLimiter with the /generate-post handler: a
rejected request answers the limiter payload directly and never reaches
the handler, so no upstream call is made. -/
def gatedGeneratePost (s : Option RateState) (now : Nat) (topic : Option String)
    (style : String) (upstream : String → UpstreamOutcome) :
    PostOutcome × Option RateState :=
  match rateStep s now with
  | (.admitted, s1) => (generatePost topic style upstream, s1)
  | (.rejected code msg, s1) =>
    ({ response := { status := code, responseText := none, searchQueries := none,
                     error := some msg },
       calledWith := none }, s1)

/-! ## CORS origin check -/

/-- The whitelist of origins allowed to call the server. -/
def allowedOrigins : List String :=
  ["https://mindgpt-ai.vercel.app", "http://localhost:5500", "http://127.0.0.1:5500"]

/-- The corsOptions.origin callback: true means the request is admitted.  A
falsy origin (header absent, or the empty string) is admitted; otherwise
the origin must be in the whitelist. -/
def corsOriginCheck : Option String → Bool
  | none => true
  | some s => s == "" || allowedOrigins.contains s

/-! ## Client request orchestrator (handleGeneration in src/script.js) -/

/-- The last successful submission remembered for the regenerate button. -/
structure LastSubmission where
  topic : String
  tone : String
deriving DecidableEq

/-- One entry of the client history list. -/
structure HistoryEntry where
  id : Nat
  topic : String
  tone : String
  responseText : String
  searchQueries : List String
deriving DecidableEq

/-- The client state touched by handleGeneration: the two form fields, the
remembered last submission and the history list (newest first). -/
structure ClientState where
  topicTextarea : String
  toneSelect : String
  lastSubmission : LastSubmission
  history : List HistoryEntry
deriving DecidableEq

/-- Outcome of the fetch to /generate-post as seen by the client: a
successful JSON body, or any thrown failure (non-ok status, network or
parse error). -/
inductive FetchOutcome where
  | success (responseText : String) (searchQueries : List String)
  | failure (message : String)
deriving DecidableEq

/-- addToHistory: new entries are prepended to the history list. -/
def addToHistory (history : List HistoryEntry) (entry : HistoryEntry) : List HistoryEntry :=
  entry :: history

/-- handleGeneration: a regeneration reads topic and tone from
lastSubmission, an original submission reads them from the form; an empty
trimmed topic aborts before any request; on fetch success lastSubmission
is updated and, only when the call is not a regeneration, a new
HistoryEntry is prepended; on fetch failure the state is unchanged.  The
second component is the request actually issued, or none when the guard
aborted. -/
def handleGeneration (s : ClientState) (isRegeneration : Bool)
    (fetch : FetchOutcome) (now : Nat) : ClientState × Option (String × String) :=
  let topic := if isRegeneration then s.lastSubmission.topic else s.topicTextarea
  let tone := if isRegeneration then s.lastSubmission.tone else s.toneSelect
  if jsTrim topic == "" then
    (s, none)
  else
    match fetch with
    | .failure _ => (s, some (topic, tone))
    | .success responseText searchQueries =>
      let s1 := { s with lastSubmission := { topic := topic, tone := tone } }
      let entry : HistoryEntry :=
        { id := now, topic := topic, tone := tone,
          responseText := responseText, searchQueries := searchQueries }
      if isRegeneration then
        (s1, some (topic, tone))
      else
        ({ s1 with history := addToHistory s1.history entry }, some (topic, tone))

/-! ## Theorems -/

/-- Helper: the forEach accumulation over the split lines is the filter of
non-marker lines alongside the stripped-and-trimmed map of the marker
lines, each in original order. -/
theorem foldl_stepLine_eq (lines rt sq : List String) :
    lines.foldl stepLine (rt, sq) =
      (rt ++ lines.filter (fun l => !(jsStartsWith l searchQueryMarker)),
       sq ++ (lines.filter (fun l => jsStartsWith l searchQueryMarker)).map
         (fun l => jsTrim (jsReplaceFirst l searchQueryMarker ""))) := by
  induction lines generalizing rt sq with
  | nil => simp
  | cons head tail ih =>
    by_cases h : jsStartsWith head searchQueryMarker = true
    · simp [stepLine, h, ih]
    · simp [stepLine, h, ih]

/-- C1: for every raw upstream text, the /generate-post parser produces
exactly one searchQueries entry per line beginning with the marker token
(marker stripped via first-occurrence replacement, then trimmed), in the
order those lines appear, for any count including zero; responseText is
the remaining lines rejoined with newlines in their original order and
then trimmed. -/
theorem generate_post_parser_spec (t : String) :
    (parsePost t).2 =
      ((jsSplitNewline t).filter (fun l => jsStartsWith l searchQueryMarker)).map
        (fun l => jsTrim (jsReplaceFirst l searchQueryMarker ""))
  ∧ (parsePost t).2.length =
      ((jsSplitNewline t).filter (fun l => jsStartsWith l searchQueryMarker)).length
  ∧ (parsePost t).1 =
      jsTrim (joinSep "\n"
        ((jsSplitNewline t).filter (fun l => !(jsStartsWith l searchQueryMarker)))) := by
  unfold parsePost
  rw [foldl_stepLine_eq]
  simp

/-- Helper: inside an open window a request below the cap is admitted and
increments the counter. -/
theorem rateStep_admit_in_window (c w t : Nat) (h1 : t < w + windowMs)
    (h2 : c < maxRequests) :
    rateStep (some { count := c, windowStart := w }) t =
      (.admitted, some { count := c + 1, windowStart := w }) := by
  simp only [rateStep]
  rw [if_neg (by omega), if_pos h2]

/-- Helper: a run of requests inside the window that keeps the counter at
or below the cap is admitted in full. -/
theorem runLimiter_admits (ts : List Nat) (c w : Nat)
    (hin : ∀ t ∈ ts, t < w + windowMs) (hc : c + ts.length ≤ maxRequests) :
    runLimiter (some { count := c, windowStart := w }) ts =
      (ts.map (fun _ => RateDecision.admitted),
       some { count := c + ts.length, windowStart := w }) := by
  induction ts generalizing c with
  | nil => simp [runLimiter]
  | cons t ts ih =>
    have h1 : t < w + windowMs := hin t (by simp)
    have h2 : c < maxRequests := by
      simp only [List.length_cons] at hc
      omega
    have h3 : ∀ u ∈ ts, u < w + windowMs := fun u hu => hin u (by simp [hu])
    have h4 : c + 1 + ts.length ≤ maxRequests := by
      simp only [List.length_cons] at hc
      omega
    simp only [runLimiter, rateStep_admit_in_window c w t h1 h2, ih (c + 1) h3 h4,
      List.map_cons, List.length_cons]
    rw [show c + 1 + ts.length = c + (ts.length + 1) by omega]

/-- C2: for a single client, at most 15 requests are admitted within an
active 5-minute window: the first 15 requests are all admitted, the 16th
inside the window is rejected with a 429 status and the structured error
payload, without invoking the generation gateway; once the window has
elapsed the counter resets and a new request is admitted. -/
theorem rate_limiter_window (w t16 t17 : Nat) (ts : List Nat)
    (h14 : ts.length = 14) (hin : ∀ t ∈ ts, t < w + windowMs)
    (h16 : t16 < w + windowMs) (h17 : w + windowMs ≤ t17)
    (topic : Option String) (style : String) (up : String → UpstreamOutcome) :
    (runLimiter none (w :: ts)).1 = (w :: ts).map (fun _ => RateDecision.admitted)
  ∧ (rateStep (runLimiter none (w :: ts)).2 t16).1 = .rejected 429 rateLimitMessage
  ∧ (rateStep (runLimiter none (w :: ts)).2 t16).2 = (runLimiter none (w :: ts)).2
  ∧ (gatedGeneratePost (runLimiter none (w :: ts)).2 t16 topic style up).1 =
      { response := { status := 429, responseText := none, searchQueries := none,
                      error := some rateLimitMessage }, calledWith := none }
  ∧ (rateStep (runLimiter none (w :: ts)).2 t17).1 = .admitted
  ∧ (rateStep (runLimiter none (w :: ts)).2 t17).2 = some { count := 1, windowStart := t17 } := by
  have hcap : 1 + ts.length ≤ maxRequests := by
    rw [h14]
    decide
  have hrun : runLimiter none (w :: ts) =
      ((w :: ts).map (fun _ => RateDecision.admitted),
       some { count := 15, windowStart := w }) := by
    simp only [runLimiter, rateStep, runLimiter_admits ts 1 w hin hcap, List.map_cons]
    rw [h14]
  have hfull : ¬ (15 < maxRequests) := by decide
  have hstep16 : rateStep (some { count := 15, windowStart := w }) t16 =
      (.rejected 429 rateLimitMessage, some { count := 15, windowStart := w }) := by
    simp only [rateStep]
    rw [if_neg (by omega), if_neg hfull]
  have hstep17 : rateStep (some { count := 15, windowStart := w }) t17 =
      (.admitted, some { count := 1, windowStart := t17 }) := by
    simp only [rateStep]
    rw [if_pos h17]
  refine ⟨by rw [hrun], ?_, ?_, ?_, ?_, ?_⟩
  · rw [hrun, hstep16]
  · rw [hrun, hstep16]
  · rw [hrun]
    simp only [gatedGeneratePost, hstep16]
  · rw [hrun, hstep17]
  · rw [hrun, hstep17]

/-- Helper: the catch block answers 429 with the quota payload exactly when
the message matches the quota pattern, and 500 with the generic payload
otherwise. -/
theorem generatePostCatch_cases (msg : String) :
    generatePostCatch msg =
      (if quotaMatch msg then
        { status := 429, responseText := none, searchQueries := none,
          error := some quotaMessage }
      else
        { status := 500, responseText := none, searchQueries := none,
          error := some genericErrorMessage }) := by
  unfold generatePostCatch
  split <;> rfl

/-- C3: POST /generate-post returns exactly one of 200 with responseText
and searchQueries, 400 with an error payload exactly when the topic is
falsy and then without calling the upstream model, 429 with the fixed
quota message, or 500 with the fixed generic message; a thrown upstream
message maps to 429 exactly when it matches the quota pattern; every error
payload is one of three fixed strings, so no internal exception text
reaches the caller. -/
theorem generate_post_status_contract (topic : Option String) (style : String)
    (up : String → UpstreamOutcome) :
    ((generatePost topic style up).response.status = 400
      ∨ (generatePost topic style up).response.status = 200
      ∨ (generatePost topic style up).response.status = 429
      ∨ (generatePost topic style up).response.status = 500)
  ∧ ((generatePost topic style up).response.status = 400 ↔ jsFalsyStr topic = true)
  ∧ ((generatePost topic style up).response.status = 400 →
      (generatePost topic style up).calledWith = none
      ∧ (generatePost topic style up).response.error = some topicRequiredMessage)
  ∧ ((generatePost topic style up).response.status = 200 →
      ∃ rt sq, (generatePost topic style up).response.responseText = some rt
        ∧ (generatePost topic style up).response.searchQueries = some sq
        ∧ (generatePost topic style up).response.error = none)
  ∧ ((generatePost topic style up).response.status = 429 →
      (generatePost topic style up).response.error = some quotaMessage)
  ∧ ((generatePost topic style up).response.status = 500 →
      (generatePost topic style up).response.error = some genericErrorMessage)
  ∧ ((generatePost topic style up).response.error = none
      ∨ (generatePost topic style up).response.error = some topicRequiredMessage
      ∨ (generatePost topic style up).response.error = some quotaMessage
      ∨ (generatePost topic style up).response.error = some genericErrorMessage)
  ∧ (∀ msg, jsFalsyStr topic = false →
      up (getPromptForStyle (topic.getD "") style) = .threw msg →
      (generatePost topic style up).response.status = if quotaMatch msg then 429 else 500) := by
  cases hb : jsFalsyStr topic with
  | true =>
    have e : generatePost topic style up =
        { response := { status := 400, responseText := none, searchQueries := none,
                        error := some topicRequiredMessage },
          calledWith := none } := by
      unfold generatePost
      rw [if_pos hb]
    rw [e]
    simp [hb]
  | false =>
    have hif : ¬ (jsFalsyStr topic = true) := by simp [hb]
    cases hup : up (getPromptForStyle (topic.getD "") style) with
    | threw msg =>
      have e : generatePost topic style up =
          { response := generatePostCatch msg,
            calledWith := some (getPromptForStyle (topic.getD "") style) } := by
        unfold generatePost
        rw [if_neg hif]
        simp only [hup]
      rw [e, generatePostCatch_cases msg]
      cases hq : quotaMatch msg <;>
        simp_all [hb, hup, quotaMessage, genericErrorMessage, topicRequiredMessage]
    | returned resp =>
      have hth : ∀ msg, up (getPromptForStyle (topic.getD "") style) ≠ .threw msg := by
        intro msg h
        rw [hup] at h
        exact UpstreamOutcome.noConfusion h
      cases resp with
      | none =>
        have e : generatePost topic style up =
            { response := generatePostCatch (validationMessage none),
              calledWith := some (getPromptForStyle (topic.getD "") style) } := by
          unfold generatePost
          rw [if_neg hif]
          simp only [hup]
        rw [e, generatePostCatch_cases]
        cases hq : quotaMatch (validationMessage none) <;>
          simp_all [hb]
      | some r =>
        cases hrt : r.text with
        | none =>
          have e : generatePost topic style up =
              { response := generatePostCatch (validationMessage (some r)),
                calledWith := some (getPromptForStyle (topic.getD "") style) } := by
            unfold generatePost
            rw [if_neg hif]
            simp only [hup, hrt]
          rw [e, generatePostCatch_cases]
          cases hq : quotaMatch (validationMessage (some r)) <;>
            simp_all [hb]
        | some fullText =>
          have e : generatePost topic style up =
              { response := { status := 200,
                              responseText := some (parsePost fullText).1,
                              searchQueries := some (parsePost fullText).2,
                              error := none },
                calledWith := some (getPromptForStyle (topic.getD "") style) } := by
            unfold generatePost
            rw [if_neg hif]
            simp only [hup, hrt]
          rw [e]
          simp_all [hb]

/-- C4: evaluation at the failing input.  When the upstream response is
present, carries no block reason, and its text body is the empty string,
the route answers 200 with an empty responseText instead of treating the
empty body as a failure: the validation only tests presence of the text
accessor, never the emptiness of the returned text. -/
theorem empty_text_body_returns_success :
    (generatePost (some "AI") "Simple"
        (fun _ => .returned (some { blockReason := none, text := some "" }))).response =
      { status := 200, responseText := some "", searchQueries := some [], error := none } := by
  decide

/-- C5: the prompt builder is a pure function of topic and style; every
style outside the recognized set falls back to the default persona prompt;
for every topic and style the result embeds the topic verbatim after the
fixed formatting directive, and the directive contains the marker-token
instruction. -/
theorem prompt_builder_contract (topic style : String) :
    (style ∉ (["Professional", "Casual", "Simple", "Creative"] : List String) →
      getPromptForStyle topic style =
        "You are a helpful and knowledgeable AI assistant. Provide a detailed and informative answer for the following question or topic. " ++ formattingInstruction ++ " Topic: \"" ++ topic ++ "\"")
  ∧ (∃ persona, getPromptForStyle topic style =
      persona ++ formattingInstruction ++ " Topic: \"" ++ topic ++ "\"")
  ∧ (∃ a b, formattingInstruction = a ++ "SEARCH_QUERY:" ++ b) := by
  refine ⟨?_, ?_, ?_⟩
  · intro h
    simp only [List.mem_cons, List.not_mem_nil, or_false, not_or] at h
    obtain ⟨h1, h2, h3, h4⟩ := h
    unfold getPromptForStyle
    rw [if_neg (by simp [h1]), if_neg (by simp [h2]), if_neg (by simp [h3]),
      if_neg (by simp [h4])]
  · unfold getPromptForStyle
    split
    · exact ⟨_, rfl⟩
    split
    · exact ⟨_, rfl⟩
    split
    · exact ⟨_, rfl⟩
    split
    · exact ⟨_, rfl⟩
    · exact ⟨_, rfl⟩
  · exact ⟨"Do not use asterisks for emphasis (like *word*). Only use asterisks for bullet points. After the main response, provide a list of 3 relevant web search queries that would help the user learn more. Each query must be on a new line and prefixed with \x27",
      "\x27. For example:\\nSEARCH_QUERY: history of artificial intelligence", by rfl⟩

/-- Witness for the prompt-builder contract at a concrete unrecognized
style. -/
theorem prompt_builder_contract_witness :
    getPromptForStyle "history of AI" "Chaotic" =
      "You are a helpful and knowledgeable AI assistant. Provide a detailed and informative answer for the following question or topic. " ++ formattingInstruction ++ " Topic: \"" ++ "history of AI" ++ "\""
  ∧ (∃ persona, getPromptForStyle "history of AI" "Chaotic" =
      persona ++ formattingInstruction ++ " Topic: \"" ++ "history of AI" ++ "\"") :=
  ⟨(prompt_builder_contract "history of AI" "Chaotic").1 (by decide),
   (prompt_builder_contract "history of AI" "Chaotic").2.1⟩

/-- C6: a /generate-suggestions request whose query is absent or whose
trimmed length is below 3 answers an empty suggestions list immediately,
with no upstream call. -/
theorem suggestions_short_query_guard (query : Option String)
    (up : String → UpstreamOutcome)
    (h : query = none ∨ ∃ q, query = some q ∧ (jsTrim q).length < 3) :
    generateSuggestions query up =
      { status := 200, suggestions := [], calledWith := none } := by
  rcases h with h | ⟨q, rfl, hq⟩
  · subst h
    rfl
  · unfold generateSuggestions
    rw [if_pos (by simp [hq])]

/-- Witness for the short-query guard at a concrete two-character query. -/
theorem suggestions_short_query_guard_witness :
    generateSuggestions (some "hi") (fun _ => UpstreamOutcome.returned none) =
      { status := 200, suggestions := [], calledWith := none } :=
  suggestions_short_query_guard (some "hi") (fun _ => UpstreamOutcome.returned none)
    (Or.inr ⟨"hi", rfl, by decide⟩)

/-- Helper: every branch of the suggestions route answers status 200. -/
theorem generateSuggestions_status (query : Option String)
    (up : String → UpstreamOutcome) :
    (generateSuggestions query up).status = 200 := by
  unfold generateSuggestions
  split
  · rfl
  · cases hup : up (suggestionPrompt (query.getD "")) with
    | threw m => simp [hup]
    | returned r =>
      cases r with
      | none => simp [hup]
      | some gr =>
        cases ht : gr.text with
        | none => simp [hup, ht]
        | some text => simp [hup, ht]

/-- Helper: past the guard, the suggestions route is the case split on the
upstream outcome, always recording the upstream call. -/
theorem generateSuggestions_called (q : String) (up : String → UpstreamOutcome)
    (hne : q ≠ "") (hlen : 3 ≤ (jsTrim q).length) :
    generateSuggestions (some q) up =
      match up (suggestionPrompt q) with
      | .threw _ =>
        { status := 200, suggestions := [], calledWith := some (suggestionPrompt q) }
      | .returned none =>
        { status := 200, suggestions := [], calledWith := some (suggestionPrompt q) }
      | .returned (some r) =>
        match r.text with
        | none =>
          { status := 200, suggestions := [], calledWith := some (suggestionPrompt q) }
        | some text =>
          { status := 200, suggestions := suggestionsOf text,
            calledWith := some (suggestionPrompt q) } := by
  unfold generateSuggestions
  rw [if_neg (by simp [jsFalsyStr, hne, Nat.not_lt.mpr hlen])]
  rfl

/-- C7: POST /generate-suggestions never returns an error: the status is
always 200; past the guard, any upstream failure (a rejection, a missing
response, or a missing text accessor) degrades to an empty list, and an
upstream success answers the response split on newlines with
empty-or-whitespace-only lines dropped, in original order. -/
theorem suggestions_never_error (query : Option String)
    (up : String → UpstreamOutcome) :
    (generateSuggestions query up).status = 200
  ∧ (∀ q, query = some q → q ≠ "" → 3 ≤ (jsTrim q).length →
      ((∀ msg, up (suggestionPrompt q) = .threw msg →
          generateSuggestions query up =
            { status := 200, suggestions := [],
              calledWith := some (suggestionPrompt q) })
       ∧ (up (suggestionPrompt q) = .returned none →
          generateSuggestions query up =
            { status := 200, suggestions := [],
              calledWith := some (suggestionPrompt q) })
       ∧ (∀ r, up (suggestionPrompt q) = .returned (some r) → r.text = none →
          generateSuggestions query up =
            { status := 200, suggestions := [],
              calledWith := some (suggestionPrompt q) })
       ∧ (∀ r text, up (suggestionPrompt q) = .returned (some r) → r.text = some text →
          generateSuggestions query up =
            { status := 200,
              suggestions := (jsSplitNewline text).filter (fun s => jsTrim s != ""),
              calledWith := some (suggestionPrompt q) }))) := by
  refine ⟨generateSuggestions_status query up, ?_⟩
  rintro q rfl hne hlen
  rw [generateSuggestions_called q up hne hlen]
  refine ⟨?_, ?_, ?_, ?_⟩
  · intro msg hup
    rw [hup]
  · intro hup
    rw [hup]
  · intro r hup ht
    rw [hup]
    simp [ht]
  · intro r text hup ht
    rw [hup]
    simp [ht, suggestionsOf]

/-- Witness for the suggestions route on a concrete upstream failure. -/
theorem suggestions_never_error_witness :
    generateSuggestions (some "weather") (fun _ => UpstreamOutcome.threw "network down") =
      { status := 200, suggestions := [],
        calledWith := some (suggestionPrompt "weather") } :=
  (((suggestions_never_error (some "weather")
      (fun _ => UpstreamOutcome.threw "network down")).2 "weather" rfl
      (by decide) (by decide)).1 "network down" rfl)

/-- C8: after a successful original submission, the stored last submission
holds that topic and tone; invoking regenerate reuses exactly them; a
successful regeneration leaves the history list unchanged (no fetch
outcome of a regeneration ever changes it), while the original success
prepended exactly one HistoryEntry. -/
theorem regeneration_history_frame (s : ClientState) (rt rt2 : String)
    (sq sq2 : List String) (now now2 : Nat)
    (hguard : jsTrim s.topicTextarea ≠ "") :
    (handleGeneration s false (.success rt sq) now).1.lastSubmission =
      { topic := s.topicTextarea, tone := s.toneSelect }
  ∧ (handleGeneration s false (.success rt sq) now).1.history =
      { id := now, topic := s.topicTextarea, tone := s.toneSelect,
        responseText := rt, searchQueries := sq } :: s.history
  ∧ (handleGeneration (handleGeneration s false (.success rt sq) now).1
      true (.success rt2 sq2) now2).2 = some (s.topicTextarea, s.toneSelect)
  ∧ (handleGeneration (handleGeneration s false (.success rt sq) now).1
      true (.success rt2 sq2) now2).1.history =
      (handleGeneration s false (.success rt sq) now).1.history
  ∧ (∀ f now3,
      (handleGeneration (handleGeneration s false (.success rt sq) now).1
        true f now3).1.history =
        (handleGeneration s false (.success rt sq) now).1.history) := by
  have e1 : handleGeneration s false (.success rt sq) now =
      ({ topicTextarea := s.topicTextarea, toneSelect := s.toneSelect,
         lastSubmission := { topic := s.topicTextarea, tone := s.toneSelect },
         history := { id := now, topic := s.topicTextarea, tone := s.toneSelect,
                      responseText := rt, searchQueries := sq } :: s.history },
       some (s.topicTextarea, s.toneSelect)) := by
    unfold handleGeneration
    rw [if_neg (by simp [hguard])]
    rfl
  rw [e1]
  refine ⟨rfl, rfl, ?_, ?_, ?_⟩
  · unfold handleGeneration
    rw [if_neg (by simp [hguard])]
    rfl
  · unfold handleGeneration
    rw [if_neg (by simp [hguard])]
    rfl
  · intro f now3
    unfold handleGeneration
    rw [if_neg (by simp [hguard])]
    cases f with
    | failure m => rfl
    | success a b => rfl

/-- Witness for the regeneration frame property at a concrete state. -/
theorem regeneration_history_frame_witness :
    (handleGeneration
      (handleGeneration
        { topicTextarea := "history of AI", toneSelect := "Simple",
          lastSubmission := { topic := "", tone := "" }, history := [] }
        false (.success "body" ["q1"]) 7).1
      true (.success "body2" ["q2"]) 8).1.history =
      (handleGeneration
        { topicTextarea := "history of AI", toneSelect := "Simple",
          lastSubmission := { topic := "", tone := "" }, history := [] }
        false (.success "body" ["q1"]) 7).1.history :=
  (regeneration_history_frame
    { topicTextarea := "history of AI", toneSelect := "Simple",
      lastSubmission := { topic := "", tone := "" }, history := [] }
    "body" "body2" ["q1"] ["q2"] 7 8 (by decide)).2.2.2.1

/-- C9 counterexample: a request with no Origin header is admitted by the
origin check although no origin value of it lies in the allow-list, so
admission is not equivalent to allow-list membership. -/
theorem cors_counterexample_no_origin :
    corsOriginCheck none = true
  ∧ ¬ (∃ s, (none : Option String) = some s ∧ s ∈ allowedOrigins) := by
  refine ⟨rfl, ?_⟩
  rintro ⟨s, h, -⟩
  exact Option.noConfusion h

/-- C9 amended: the CORS origin check admits a request exactly when its
Origin value is absent, the empty string, or a member of the fixed
allow-list; every request carrying any other origin is rejected. -/
theorem cors_origin_check_characterization (o : Option String) :
    corsOriginCheck o = true ↔
      (o = none ∨ o = some "" ∨ ∃ s, o = some s ∧ s ∈ allowedOrigins) := by
  cases o with
  | none => simp [corsOriginCheck]
  | some s =>
    by_cases hmem : s ∈ allowedOrigins
    · simp [corsOriginCheck, List.contains, hmem]
    · by_cases hs : s = ""
      · subst hs
        simp [corsOriginCheck]
      · simp [corsOriginCheck, List.contains, hmem, hs]

/-- C10: only an absent or empty-string topic triggers the 400 rejection of
POST /generate-post; a topic of a single space passes validation, and the
prompt sent upstream embeds that whitespace topic verbatim. -/
theorem whitespace_topic_passes_validation (style : String)
    (up : String → UpstreamOutcome) :
    (∀ topic, ((generatePost topic style up).response.status = 400 ↔
        jsFalsyStr topic = true))
  ∧ (generatePost (some " ") style up).calledWith =
      some (getPromptForStyle " " style)
  ∧ (∃ persona, getPromptForStyle " " style =
      persona ++ formattingInstruction ++ " Topic: \"" ++ " " ++ "\"") := by
  have key : ∀ topic : Option String, jsFalsyStr topic = false →
      (generatePost topic style up).response.status ≠ 400
      ∧ (generatePost topic style up).calledWith =
          some (getPromptForStyle (topic.getD "") style) := by
    intro topic hb
    unfold generatePost
    rw [if_neg (by simp [hb])]
    cases hup : up (getPromptForStyle (topic.getD "") style) with
    | threw msg =>
      simp only [hup]
      rw [generatePostCatch_cases]
      split <;> simp
    | returned resp =>
      cases resp with
      | none =>
        simp only [hup]
        rw [generatePostCatch_cases]
        split <;> simp
      | some r =>
        cases ht : r.text with
        | none =>
          simp only [hup, ht]
          rw [generatePostCatch_cases]
          split <;> simp
        | some fullText =>
          simp only [hup, ht]
          simp
  refine ⟨?_, ?_, ?_⟩
  · intro topic
    cases hb : jsFalsyStr topic with
    | true =>
      have e : generatePost topic style up =
          { response := { status := 400, responseText := none, searchQueries := none,
                          error := some topicRequiredMessage },
            calledWith := none } := by
        unfold generatePost
        rw [if_pos hb]
      rw [e]
      simp
    | false =>
      simp [(key topic hb).1]
  · exact (key (some " ") (by decide)).2
  · unfold getPromptForStyle
    split
    · exact ⟨_, rfl⟩
    split
    · exact ⟨_, rfl⟩
    split
    · exact ⟨_, rfl⟩
    split
    · exact ⟨_, rfl⟩
    · exact ⟨_, rfl⟩

/-- Witness for the rate-limiter window property: fifteen requests at the
start of a window, a sixteenth inside it, and one at the reset instant. -/
theorem rate_limiter_window_witness :
    (rateStep (runLimiter none (0 :: List.replicate 14 0)).2 1).1 =
      RateDecision.rejected 429 rateLimitMessage
  ∧ (rateStep (runLimiter none (0 :: List.replicate 14 0)).2 windowMs).1 =
      RateDecision.admitted :=
  have h := rate_limiter_window 0 1 windowMs (List.replicate 14 0)
    (by decide) (by decide) (by decide) (by decide)
    none "Simple" (fun _ => UpstreamOutcome.returned none)
  ⟨h.2.1, h.2.2.2.2.1⟩

/-- Witness for the status contract on a concrete quota-flavoured upstream
rejection. -/
theorem generate_post_status_contract_witness :
    (generatePost (some "AI") "Simple"
        (fun _ => UpstreamOutcome.threw "429 Too Many Requests")).response.status = 429 := by
  have h := (generate_post_status_contract (some "AI") "Simple"
      (fun _ => UpstreamOutcome.threw "429 Too Many Requests")).2.2.2.2.2.2.2
      "429 Too Many Requests" (by decide) rfl
  rw [h]
  decide
